import Mathlib

/-!
Shallow embedding of the 4-digit 7-segment shift-register display driver
(src/main.cpp and src/Task2/main.cpp) and its stopwatch tick functions.

Output-pin activity is modelled as a trace of events on the three lines
(latch, data, clock); each C++ write to a DigitalOut pin appends one event.
C++ int arithmetic is modelled on Int with truncated division (Int.tdiv)
and truncated remainder (Int.tmod), which is what C++ / and % compute.
An out-of-bounds read of the 10-entry digitPattern array is undefined
behavior in C++; the lookup is therefore modelled as an Option, returning
none exactly when the index is outside [0, 9].
-/

namespace Display

/-- One observable action on the output lines of the shift-register
interface: driving the latch, data or clock pin to a boolean level. -/
inductive Event where
  | latch : Bool → Event
  | data : Bool → Event
  | clock : Bool → Event
deriving DecidableEq, Repr

/-- shiftOutMSBFirst (src/main.cpp lines 61-67; identical in
src/Task2/main.cpp lines 56-62): for i = 7 down to 0, drive the data pin
to bit i of value, then pulse the clock high and low. -/
def shiftOutMSBFirst (value : Nat) : List Event :=
  (List.range 8).reverse.flatMap fun i =>
    [Event.data (value &&& (1 <<< i) != 0), Event.clock true, Event.clock false]

/-- writeToShiftRegister (src/main.cpp lines 72-77; identical in
src/Task2/main.cpp lines 67-72): lower the latch, shift out the segment
byte, then the digit-select byte, then raise the latch. -/
def writeToShiftRegister (segments digit : Nat) : List Event :=
  [Event.latch false] ++ shiftOutMSBFirst segments ++ shiftOutMSBFirst digit
    ++ [Event.latch true]

/-- The digitPattern table (src/main.cpp lines 16-27; identical in
src/Task2/main.cpp lines 21-32): common-anode patterns, each the bitwise
complement, as a uint8, of the standard 7-segment encoding of 0-9. -/
def digitPattern : List Nat :=
  [0xFF ^^^ 0x3F, 0xFF ^^^ 0x06, 0xFF ^^^ 0x5B, 0xFF ^^^ 0x4F, 0xFF ^^^ 0x66,
   0xFF ^^^ 0x6D, 0xFF ^^^ 0x7D, 0xFF ^^^ 0x07, 0xFF ^^^ 0x7F, 0xFF ^^^ 0x6F]

/-- The digitPos table (src/main.cpp lines 32-37; src/Task2/main.cpp
line 37): one-hot digit-select masks, leftmost to rightmost. -/
def digitPos : List Nat := [0x01, 0x02, 0x04, 0x08]

/-- Reading digitPattern[d] for a C++ int index d. The array has 10
entries, so the read is defined only for 0 <= d < 10; any other index is
an out-of-bounds access (undefined behavior), modelled as none. -/
def patternAt (d : Int) : Option Nat :=
  if 0 ≤ d ∧ d < 10 then digitPattern.get? d.toNat else none

/-- The segment-encoding step of src/Task2/main.cpp lines 88-90: look the
digit up in digitPattern and, when the decimal point is requested, clear
bit 7 (pattern &= ~0x80; as a uint8, ~0x80 is 0x7F). -/
def encode (d : Int) (decimalOn : Bool) : Option Nat :=
  (patternAt d).map fun p => if decimalOn then p &&& 0x7F else p

/-- The four-digit decomposition shared by both displayNumber variants
(src/main.cpp lines 83-88; src/Task2/main.cpp lines 79-84), index 0 the
most significant digit. C++ / and % on int truncate toward zero, which
is Int.tdiv and Int.tmod. -/
def digitsOf (number : Int) : List Int :=
  [((number.tdiv 1000).tmod 10), ((number.tdiv 100).tmod 10),
   ((number.tdiv 10).tmod 10), (number.tmod 10)]

namespace Main

/-- displayNumber of src/main.cpp lines 82-95, abstracted to the sequence
of writeToShiftRegister calls it issues: one (segments, digitSelect) pair
per loop iteration i = 0..3, in order; none when a digitPattern index is
out of bounds (C++ undefined behavior). -/
def displayNumber (number : Int) : Option (List (Nat × Nat)) :=
  (List.range 4).mapM fun i => do
    let p ← patternAt ((digitsOf number).getD i 0)
    pure (p, digitPos.getD i 0)

/-- updateTime of src/main.cpp lines 50-57, on the state
(seconds, minutes): seconds++; if seconds >= 60 then seconds = 0,
minutes++, and if minutes >= 100 then minutes = 0. -/
def updateTime : Int × Int → Int × Int := fun st =>
  if 60 ≤ st.1 + 1 then
    (0, if 100 ≤ st.2 + 1 then 0 else st.2 + 1)
  else (st.1 + 1, st.2)

end Main

namespace Task2

/-- displayNumber of src/Task2/main.cpp lines 77-94, abstracted to the
sequence of writeToShiftRegister calls it issues: for each i = 0..3 the
pattern is the digitPattern entry for digit i, with bit 7 cleared when
showDecimal is set and i equals decimalPos. -/
def displayNumber (number : Int) (showDecimal : Bool) (decimalPos : Int) :
    Option (List (Nat × Nat)) :=
  (List.range 4).mapM fun i => do
    let p ← encode ((digitsOf number).getD i 0)
        (showDecimal && ((i : Int) == decimalPos))
    pure (p, digitPos.getD i 0)

/-- updateTime of src/Task2/main.cpp lines 46-52, on the state
(seconds, minutes): seconds++; if seconds >= 60 then seconds = 0 and
minutes = (minutes + 1) % 100, with C++ % being Int.tmod. -/
def updateTime : Int × Int → Int × Int := fun st =>
  if 60 ≤ st.1 + 1 then (0, (st.2 + 1).tmod 100)
  else (st.1 + 1, st.2)

end Task2

/-- States of the (seconds, minutes) counters reachable from startup:
both start at 0 (src/main.cpp line 42), a tick of either updateTime
variant may fire at any time, and the reset branch of the main loop
(src/main.cpp lines 103-106; src/Task2/main.cpp lines 105-109) sets both
counters back to 0. -/
inductive Reachable : Int × Int → Prop where
  | init : Reachable (0, 0)
  | tick1 : ∀ {st}, Reachable st → Reachable (Main.updateTime st)
  | tick2 : ∀ {st}, Reachable st → Reachable (Task2.updateTime st)
  | reset : ∀ {st}, Reachable st → Reachable (0, 0)

/-- Number of rising clock edges (clock pulses) in a trace. -/
def clockPulses (l : List Event) : Nat :=
  l.countP fun e => match e with
    | Event.clock true => true
    | _ => false

/-- Number of latch-line events in a trace. -/
def latchEvents (l : List Event) : Nat :=
  l.countP fun e => match e with
    | Event.latch _ => true
    | _ => false

/-- Number of data-line events in a trace. -/
def dataEvents (l : List Event) : Nat :=
  l.countP fun e => match e with
    | Event.data _ => true
    | _ => false

/-- The data-line levels of a trace, in order of emission. -/
def dataBits (l : List Event) : List Bool :=
  l.filterMap fun e => match e with
    | Event.data b => some b
    | _ => none

/-- Reassemble a bit sequence most-significant-bit first. -/
def assembleMSB (bits : List Bool) : Nat :=
  bits.foldl (fun acc b => 2 * acc + (if b then 1 else 0)) 0

theorem digitsOf_ofNat (v : Nat) :
    digitsOf (Int.ofNat v) =
      [Int.ofNat (v / 1000 % 10), Int.ofNat (v / 100 % 10),
       Int.ofNat (v / 10 % 10), Int.ofNat (v % 10)] := rfl

theorem patternAt_ofNat_lt (k : Nat) (h : k < 10) :
    patternAt (Int.ofNat k) = some (digitPattern.getD k 0) := by
  interval_cases k <;> rfl

theorem mainDisplay_ofNat (v : Nat) :
    Main.displayNumber (Int.ofNat v) =
      some [(digitPattern.getD (v / 1000 % 10) 0, 0x01),
            (digitPattern.getD (v / 100 % 10) 0, 0x02),
            (digitPattern.getD (v / 10 % 10) 0, 0x04),
            (digitPattern.getD (v % 10) 0, 0x08)] := by
  have h0 := patternAt_ofNat_lt (v / 1000 % 10) (Nat.mod_lt _ (by norm_num))
  have h1 := patternAt_ofNat_lt (v / 100 % 10) (Nat.mod_lt _ (by norm_num))
  have h2 := patternAt_ofNat_lt (v / 10 % 10) (Nat.mod_lt _ (by norm_num))
  have h3 := patternAt_ofNat_lt (v % 10) (Nat.mod_lt _ (by norm_num))
  show (List.range 4).mapM _ = _
  rw [show List.range 4 = [0, 1, 2, 3] from rfl]
  simp only [List.mapM_cons, List.mapM_nil, digitsOf_ofNat,
    List.getD_cons_zero, List.getD_cons_succ]
  rw [h0, h1, h2, h3]
  rfl

theorem task2Display_ofNat (v : Nat) (dp : Int) :
    Task2.displayNumber (Int.ofNat v) false dp =
      some [(digitPattern.getD (v / 1000 % 10) 0, 0x01),
            (digitPattern.getD (v / 100 % 10) 0, 0x02),
            (digitPattern.getD (v / 10 % 10) 0, 0x04),
            (digitPattern.getD (v % 10) 0, 0x08)] := by
  have h0 := patternAt_ofNat_lt (v / 1000 % 10) (Nat.mod_lt _ (by norm_num))
  have h1 := patternAt_ofNat_lt (v / 100 % 10) (Nat.mod_lt _ (by norm_num))
  have h2 := patternAt_ofNat_lt (v / 10 % 10) (Nat.mod_lt _ (by norm_num))
  have h3 := patternAt_ofNat_lt (v % 10) (Nat.mod_lt _ (by norm_num))
  show (List.range 4).mapM _ = _
  rw [show List.range 4 = [0, 1, 2, 3] from rfl]
  simp only [List.mapM_cons, List.mapM_nil, digitsOf_ofNat,
    List.getD_cons_zero, List.getD_cons_succ, encode, Bool.false_and]
  rw [h0, h1, h2, h3]
  rfl

set_option maxHeartbeats 2000000 in
set_option maxRecDepth 100000 in
theorem shiftOut_events_aux : ∀ b : Fin 256,
    shiftOutMSBFirst b.val =
      (([7, 6, 5, 4, 3, 2, 1, 0] : List Nat).flatMap fun i =>
        [Event.data (b.val.testBit i), Event.clock true, Event.clock false]) ∧
    dataBits (shiftOutMSBFirst b.val) =
      [b.val.testBit 7, b.val.testBit 6, b.val.testBit 5, b.val.testBit 4,
       b.val.testBit 3, b.val.testBit 2, b.val.testBit 1, b.val.testBit 0] ∧
    assembleMSB (dataBits (shiftOutMSBFirst b.val)) = b.val := by decide

theorem and127_testBit (p : Nat) (hp : p < 256) (i : Nat) (hi : i ≠ 7) :
    (p &&& 0x7F).testBit i = p.testBit i := by
  rw [Nat.testBit_and]
  by_cases h8 : i < 8
  · have h127 : (0x7F : Nat).testBit i = true := by
      interval_cases i
      · decide
      · decide
      · decide
      · decide
      · decide
      · decide
      · decide
      · exact absurd rfl hi
    rw [h127, Bool.and_true]
  · push_neg at h8
    have hpow : (256 : Nat) ≤ 2 ^ i := by
      calc (256 : Nat) = 2 ^ 8 := by norm_num
        _ ≤ 2 ^ i := Nat.pow_le_pow_right (by norm_num) h8
    have h127 : (0x7F : Nat).testBit i = false :=
      Nat.testBit_lt_two_pow (lt_of_lt_of_le (by norm_num) hpow)
    have hpi : p.testBit i = false :=
      Nat.testBit_lt_two_pow (lt_of_lt_of_le hp hpow)
    rw [h127, hpi, Bool.and_false]

theorem mainTick_formula (n : Nat) :
    Main.updateTime^[n] (0, 0) =
      (((n % 60 : Nat) : Int), (((n / 60) % 100 : Nat) : Int)) := by
  induction n with
  | zero => norm_num
  | succ k ih =>
      rw [Function.iterate_succ_apply', ih]
      simp only [Main.updateTime]
      split_ifs with h1 h2 <;> rw [Prod.mk.injEq] <;> constructor <;> omega

theorem task2Tick_formula (n : Nat) :
    Task2.updateTime^[n] (0, 0) =
      (((n % 60 : Nat) : Int), (((n / 60) % 100 : Nat) : Int)) := by
  induction n with
  | zero => norm_num
  | succ k ih =>
      rw [Function.iterate_succ_apply', ih]
      simp only [Task2.updateTime]
      rw [Int.tmod_eq_emod (by omega) (by norm_num)]
      split_ifs with h1 <;> rw [Prod.mk.injEq] <;> constructor <;> omega

theorem mainTick_preserves (s m : Int)
    (h1 : 0 ≤ s) (h2 : s ≤ 59) (h3 : 0 ≤ m) (h4 : m ≤ 99) :
    0 ≤ (Main.updateTime (s, m)).1 ∧ (Main.updateTime (s, m)).1 ≤ 59 ∧
    0 ≤ (Main.updateTime (s, m)).2 ∧ (Main.updateTime (s, m)).2 ≤ 99 ∧
    0 ≤ (Main.updateTime (s, m)).2 * 100 + (Main.updateTime (s, m)).1 ∧
    (Main.updateTime (s, m)).2 * 100 + (Main.updateTime (s, m)).1 ≤ 9959 := by
  simp only [Main.updateTime]
  split_ifs with hc hd <;> simp <;> omega

theorem task2Tick_preserves (s m : Int)
    (h1 : 0 ≤ s) (h2 : s ≤ 59) (h3 : 0 ≤ m) (h4 : m ≤ 99) :
    0 ≤ (Task2.updateTime (s, m)).1 ∧ (Task2.updateTime (s, m)).1 ≤ 59 ∧
    0 ≤ (Task2.updateTime (s, m)).2 ∧ (Task2.updateTime (s, m)).2 ≤ 99 ∧
    0 ≤ (Task2.updateTime (s, m)).2 * 100 + (Task2.updateTime (s, m)).1 ∧
    (Task2.updateTime (s, m)).2 * 100 + (Task2.updateTime (s, m)).1 ≤ 9959 := by
  have ht : (m + 1).tmod 100 = (m + 1) % 100 :=
    Int.tmod_eq_emod (by omega) (by norm_num)
  simp only [Task2.updateTime, ht]
  split_ifs with hc <;> simp <;> omega

/-- Claim C1: for every value in [0, 9999], displayNumber issues exactly
four writeToShiftRegister calls, in digit-index order 0..3, whose
digit-select masks are 0x01, 0x02, 0x04, 0x08 in that order and whose
segment patterns are the digitPattern entries for d0 = value / 1000 % 10,
d1 = value / 100 % 10, d2 = value / 10 % 10 and d3 = value % 10. -/
theorem render_in_range_sequence (value : Nat) (_hv : value ≤ 9999) :
    Main.displayNumber (Int.ofNat value) =
      some [(digitPattern.getD (value / 1000 % 10) 0, 0x01),
            (digitPattern.getD (value / 100 % 10) 0, 0x02),
            (digitPattern.getD (value / 10 % 10) 0, 0x04),
            (digitPattern.getD (value % 10) 0, 0x08)] :=
  mainDisplay_ofNat value

theorem render_in_range_sequence_witness :
    (1234 : Nat) ≤ 9999 ∧
    Main.displayNumber (Int.ofNat 1234) =
      some [(249, 0x01), (164, 0x02), (176, 0x04), (153, 0x08)] :=
  ⟨by norm_num, (render_in_range_sequence 1234 (by norm_num)).trans (by decide)⟩

/-- Claim C2: for every segment byte and digit-select byte,
writeToShiftRegister emits one latch-low event, then the serialization of
the segment byte, then the serialization of the digit-select byte
(exactly 16 clock pulses and no latch activity in between), then one
latch-high event, and nothing else. -/
theorem write_frame_events (s d : Nat) (_hs : s < 256) (_hd : d < 256) :
    writeToShiftRegister s d =
      Event.latch false ::
        ((shiftOutMSBFirst s ++ shiftOutMSBFirst d) ++ [Event.latch true]) ∧
    clockPulses (shiftOutMSBFirst s ++ shiftOutMSBFirst d) = 16 ∧
    latchEvents (shiftOutMSBFirst s ++ shiftOutMSBFirst d) = 0 ∧
    clockPulses (writeToShiftRegister s d) = 16 ∧
    latchEvents (writeToShiftRegister s d) = 2 ∧
    dataEvents (shiftOutMSBFirst s) = 8 ∧
    dataEvents (shiftOutMSBFirst d) = 8 :=
  ⟨rfl, rfl, rfl, rfl, rfl, rfl, rfl⟩

theorem write_frame_events_witness :
    (0x92 : Nat) < 256 ∧ (0x04 : Nat) < 256 ∧
    clockPulses (writeToShiftRegister 0x92 0x04) = 16 ∧
    latchEvents (writeToShiftRegister 0x92 0x04) = 2 :=
  ⟨by norm_num, by norm_num,
   (write_frame_events 0x92 0x04 (by norm_num) (by norm_num)).2.2.2.1,
   (write_frame_events 0x92 0x04 (by norm_num) (by norm_num)).2.2.2.2.1⟩

/-- Claim C3: for every byte b, shiftOutMSBFirst b emits exactly 8 groups
of one data-line event followed by one clock pulse, one group per bit
position 7 down to 0 with the data line carrying that bit of b, and
reassembling the emitted data-line levels most-significant-bit first
reconstructs b exactly. -/
theorem shiftOut_roundtrip (b : Nat) (hb : b < 256) :
    shiftOutMSBFirst b =
      (([7, 6, 5, 4, 3, 2, 1, 0] : List Nat).flatMap fun i =>
        [Event.data (b.testBit i), Event.clock true, Event.clock false]) ∧
    dataBits (shiftOutMSBFirst b) =
      [b.testBit 7, b.testBit 6, b.testBit 5, b.testBit 4,
       b.testBit 3, b.testBit 2, b.testBit 1, b.testBit 0] ∧
    assembleMSB (dataBits (shiftOutMSBFirst b)) = b :=
  shiftOut_events_aux ⟨b, hb⟩

theorem shiftOut_roundtrip_witness :
    (0xA5 : Nat) < 256 ∧ assembleMSB (dataBits (shiftOutMSBFirst 0xA5)) = 0xA5 :=
  ⟨by norm_num, (shiftOut_roundtrip 0xA5 (by norm_num)).2.2⟩

/-- Claim C4: for every digit in [0, 9], encoding without the decimal
point yields exactly the bit-inverted table entry digitPattern[d], and
encoding with the decimal point differs from it in exactly bit 7, which
is cleared; all other bits are identical. -/
theorem encode_decimal_point (d : Nat) (hd : d < 10) :
    encode (Int.ofNat d) false = some (digitPattern.getD d 0) ∧
    encode (Int.ofNat d) true = some (digitPattern.getD d 0 &&& 0x7F) ∧
    (digitPattern.getD d 0).testBit 7 = true ∧
    (digitPattern.getD d 0 &&& 0x7F).testBit 7 = false ∧
    ∀ i : Nat, i ≠ 7 →
      (digitPattern.getD d 0 &&& 0x7F).testBit i = (digitPattern.getD d 0).testBit i := by
  have hlt : digitPattern.getD d 0 < 256 := by interval_cases d <;> decide
  refine ⟨?_, ?_, ?_, ?_, fun i hi => and127_testBit _ hlt i hi⟩
  · interval_cases d <;> decide
  · interval_cases d <;> decide
  · interval_cases d <;> decide
  · interval_cases d <;> decide

theorem encode_decimal_point_witness :
    (3 : Nat) < 10 ∧ encode (Int.ofNat 3) true = some 48 :=
  ⟨by norm_num, ((encode_decimal_point 3 (by norm_num)).2.1).trans (by decide)⟩

/-- Claim C5: on the (seconds, minutes) state started at (0, 0), 60 ticks
of updateTime reach seconds 0 and minutes 1, 5999 ticks reach seconds 59
and minutes 99, and the 6000th tick wraps back to (0, 0); this holds for
both source variants of updateTime. -/
theorem stopwatch_ticks :
    Main.updateTime^[60] (0, 0) = (0, 1) ∧
    Main.updateTime^[5999] (0, 0) = (59, 99) ∧
    Main.updateTime^[6000] (0, 0) = (0, 0) ∧
    Task2.updateTime^[60] (0, 0) = (0, 1) ∧
    Task2.updateTime^[5999] (0, 0) = (59, 99) ∧
    Task2.updateTime^[6000] (0, 0) = (0, 0) := by
  refine ⟨?_, ?_, ?_, ?_, ?_, ?_⟩
  · rw [mainTick_formula 60]; rfl
  · rw [mainTick_formula 5999]; rfl
  · rw [mainTick_formula 6000]; rfl
  · rw [task2Tick_formula 60]; rfl
  · rw [task2Tick_formula 5999]; rfl
  · rw [task2Tick_formula 6000]; rfl

/-- Claim C6: displayNumber 245 with the decimal point at index 1 issues
four writes with the patterns of digits 0, 2, 4, 5 (leading 0 since
245 < 1000); only the index-1 pattern has bit 7 cleared (164 becomes 36),
and the patterns at indices 0, 2, 3 equal the plain table entries. -/
theorem render_245_decimal :
    Task2.displayNumber 245 true 1 =
      some [(192, 0x01), (36, 0x02), (153, 0x04), (146, 0x08)] ∧
    digitsOf 245 = [0, 2, 4, 5] ∧
    patternAt 0 = some 192 ∧ patternAt 2 = some 164 ∧
    36 = 164 &&& 0x7F ∧
    Nat.testBit 164 7 = true ∧ Nat.testBit 36 7 = false ∧
    Nat.testBit 192 7 = true ∧ Nat.testBit 153 7 = true ∧
    Nat.testBit 146 7 = true ∧
    patternAt 4 = some 153 ∧ patternAt 5 = some 146 := by decide

/-- Claim C7 fails as stated: for the out-of-range value -5 the C++ digit
decomposition produces the digit -5, the digitPattern lookup is out of
bounds (undefined behavior, modelled as none), so rendering is not
defined for every integer outside [0, 9999]. -/
theorem render_negative_undefined :
    ((-5 : Int) < 0 ∨ 9999 < (-5 : Int)) ∧
    Main.displayNumber (-5) = none ∧
    Task2.displayNumber (-5) false (-1) = none := by decide

/-- Claim C7, amended to nonnegative out-of-range values: for every value
above 9999 both displayNumber variants produce defined output, each
per-digit decomposition is a digit in [0, 9], and the rendered digits are
the four low-order base-10 digits of the value. -/
theorem render_overflow_truncates (value : Nat) (_hv : 9999 < value) :
    Main.displayNumber (Int.ofNat value) =
      some [(digitPattern.getD (value / 1000 % 10) 0, 0x01),
            (digitPattern.getD (value / 100 % 10) 0, 0x02),
            (digitPattern.getD (value / 10 % 10) 0, 0x04),
            (digitPattern.getD (value % 10) 0, 0x08)] ∧
    Task2.displayNumber (Int.ofNat value) false (-1) =
      some [(digitPattern.getD (value / 1000 % 10) 0, 0x01),
            (digitPattern.getD (value / 100 % 10) 0, 0x02),
            (digitPattern.getD (value / 10 % 10) 0, 0x04),
            (digitPattern.getD (value % 10) 0, 0x08)] ∧
    value / 1000 % 10 < 10 ∧ value / 100 % 10 < 10 ∧
    value / 10 % 10 < 10 ∧ value % 10 < 10 :=
  ⟨mainDisplay_ofNat value, task2Display_ofNat value (-1),
   Nat.mod_lt _ (by norm_num), Nat.mod_lt _ (by norm_num),
   Nat.mod_lt _ (by norm_num), Nat.mod_lt _ (by norm_num)⟩

theorem render_overflow_truncates_witness :
    (9999 : Nat) < 12345 ∧
    Main.displayNumber (Int.ofNat 12345) =
      some [(164, 0x01), (176, 0x02), (153, 0x04), (146, 0x08)] :=
  ⟨by norm_num,
   ((render_overflow_truncates 12345 (by norm_num)).1).trans (by decide)⟩

/-- Claim C8 names a latent code bug: a digit value outside [0, 9] can
reach the digitPattern lookup (the call displayNumber (-7) passes the
digit -7 to it), and the code neither rejects nor clamps it; the lookup
is an out-of-bounds array read (undefined behavior, modelled as none). -/
theorem digit_out_of_range_unchecked :
    digitsOf (-7) = [0, 0, 0, -7] ∧
    ((-7 : Int) < 0 ∨ 9 < (-7 : Int)) ∧
    patternAt (-7) = none ∧
    encode (-7) false = none ∧ encode (-7) true = none ∧
    Task2.displayNumber (-7) false (-1) = none := by decide

/-- Claim C9: on every state with seconds in [0, 59] and minutes in
[0, 99], the updateTime of src/main.cpp and the updateTime of
src/Task2/main.cpp compute the same successor state; in particular both
wrap minutes to 0 after 99. -/
theorem updateTime_variants_agree (s m : Int)
    (_hs0 : 0 ≤ s) (_hs : s ≤ 59) (hm0 : 0 ≤ m) (hm : m ≤ 99) :
    Main.updateTime (s, m) = Task2.updateTime (s, m) := by
  have ht : (m + 1).tmod 100 = (m + 1) % 100 :=
    Int.tmod_eq_emod (by omega) (by norm_num)
  simp only [Main.updateTime, Task2.updateTime, ht]
  by_cases h : 60 ≤ s + 1
  · rw [if_pos h, if_pos h, Prod.mk.injEq]
    refine ⟨rfl, ?_⟩
    split_ifs with h100 <;> omega
  · rw [if_neg h, if_neg h]

theorem updateTime_variants_agree_witness :
    (0 : Int) ≤ 59 ∧ (59 : Int) ≤ 59 ∧ (0 : Int) ≤ 99 ∧ (99 : Int) ≤ 99 ∧
    Main.updateTime (59, 99) = Task2.updateTime (59, 99) :=
  ⟨by norm_num, by norm_num, by norm_num, by norm_num,
   updateTime_variants_agree 59 99 (by norm_num) (by norm_num) (by norm_num)
     (by norm_num)⟩

/-- Claim C10: every (seconds, minutes) state reachable from (0, 0) by
any sequence of ticks of either updateTime variant and resets satisfies
0 <= seconds <= 59 and 0 <= minutes <= 99, so the rendered value
minutes * 100 + seconds always lies in [0, 9959]. -/
theorem reachable_counters_bounded (st : Int × Int) (h : Reachable st) :
    0 ≤ st.1 ∧ st.1 ≤ 59 ∧ 0 ≤ st.2 ∧ st.2 ≤ 99 ∧
    0 ≤ st.2 * 100 + st.1 ∧ st.2 * 100 + st.1 ≤ 9959 := by
  induction h with
  | init => norm_num
  | @tick1 st h ih =>
      obtain ⟨s, m⟩ := st
      exact mainTick_preserves s m ih.1 ih.2.1 ih.2.2.1 ih.2.2.2.1
  | @tick2 st h ih =>
      obtain ⟨s, m⟩ := st
      exact task2Tick_preserves s m ih.1 ih.2.1 ih.2.2.1 ih.2.2.2.1
  | reset h ih => norm_num

theorem reachable_counters_bounded_witness :
    Reachable (0, 0) ∧
    (0 ≤ ((0, 0) : Int × Int).1 ∧ ((0, 0) : Int × Int).1 ≤ 59 ∧
     0 ≤ ((0, 0) : Int × Int).2 ∧ ((0, 0) : Int × Int).2 ≤ 99 ∧
     0 ≤ ((0, 0) : Int × Int).2 * 100 + ((0, 0) : Int × Int).1 ∧
     ((0, 0) : Int × Int).2 * 100 + ((0, 0) : Int × Int).1 ≤ 9959) :=
  ⟨Reachable.init, reachable_counters_bounded (0, 0) Reachable.init⟩

end Display
